import Mathlib

/-!
Verification of the schema-resolution / query-synthesis pipeline of
`tutorial_full.py` (an AI-to-SQL FastAPI service).  The pipeline is embedded
shallowly: Python strings become `List Char`, the Python string operations
(`strip`, `lower`, `replace`, `startswith`, `in`) are re-implemented
faithfully, database and completion-service effects become explicit
environment functions, and each route records the sequence of database calls
it performs so that non-execution properties can be stated.
-/

namespace SqlAi

/-- Decidable equality for `Except`, needed to evaluate pipeline results on
concrete inputs. -/
instance {ε α : Type} [DecidableEq ε] [DecidableEq α] : DecidableEq (Except ε α) :=
  fun x y =>
    match x, y with
    | Except.error a, Except.error b =>
      if h : a = b then isTrue (by rw [h]) else
        isFalse (fun hc => h (by cases hc; rfl))
    | Except.ok a, Except.ok b =>
      if h : a = b then isTrue (by rw [h]) else
        isFalse (fun hc => h (by cases hc; rfl))
    | Except.error _, Except.ok _ => isFalse (fun hc => by cases hc)
    | Except.ok _, Except.error _ => isFalse (fun hc => by cases hc)

/-- Python strings are modelled as lists of characters. -/
abbrev Str := List Char

/-- Embed a Lean string literal as a character list. -/
def lit (s : String) : Str := s.toList

/-- The backtick character (obtained from a string literal). -/
def btChar : Char := (lit "`").headD ' '

/-- Membership test of Python `str.strip`'s default whitespace set. -/
def isPySpace (c : Char) : Bool :=
  c == ' ' || c == '\t' || c == '\n' || c == '\r' || c == '\x0b' || c == '\x0c'

/-- Python `s.lower()` (ASCII-relevant part). -/
def pyLower (s : Str) : Str := s.map Char.toLower

/-- Python `s.lstrip()`. -/
def pyLStrip (s : Str) : Str := s.dropWhile isPySpace

/-- Python `s.rstrip()`. -/
def pyRStrip (s : Str) : Str := (s.reverse.dropWhile isPySpace).reverse

/-- Python `s.strip()`. -/
def pyStrip (s : Str) : Str := pyRStrip (pyLStrip s)

/-- Python `needle in hay` for strings: substring containment. -/
def containsSub (hay needle : Str) : Bool :=
  match hay with
  | [] => needle.isEmpty
  | c :: rest => List.isPrefixOf needle (c :: rest) || containsSub rest needle

/-- Worker for `pyReplace`.  The `skip` counter skips over the remainder of a
pattern occurrence that was just consumed (keeping the recursion structural). -/
def pyRepAux (pat repl : Str) : Nat → Str → Str
  | _, [] => []
  | n+1, _ :: rest => pyRepAux pat repl n rest
  | 0, c :: rest =>
    if List.isPrefixOf pat (c :: rest) = true ∧ pat ≠ [] then
      repl ++ pyRepAux pat repl (pat.length - 1) rest
    else
      c :: pyRepAux pat repl 0 rest

/-- Python `s.replace(pat, repl)`: replace every non-overlapping occurrence of
`pat`, scanning left to right.  (The source only uses non-empty patterns; the
`pat ≠ []` guard makes the empty-pattern case the identity.) -/
def pyReplace (pat repl s : Str) : Str := pyRepAux pat repl 0 s

/-- Python `sep.join(xs)`. -/
def pyJoin (sep : Str) (xs : List Str) : Str := List.intercalate sep xs

/-! ## Data model: catalog rows, errors, responses, environment -/

/-- A row of `information_schema.tables`. -/
structure TableRow where
  table_schema : Str
  table_name : Str
deriving DecidableEq, Repr

/-- A row of `information_schema.columns`. -/
structure ColumnRow where
  table_name : Str
  column_name : Str
  ordinal_position : Nat
deriving DecidableEq, Repr

/-- The database catalog visible through `information_schema`. -/
structure Catalog where
  tables : List TableRow
  columns : List ColumnRow
deriving Repr

/-- Shapes of the `detail` strings the service produces.  Each constructor is
one f-string of the source, with its interpolated data kept structured. -/
inductive ErrDetail where
  | couldNotDetect (candidates : List Str)
  | onlySelect
  | msg (m : Str)
  | strOfHTTP (status : Nat) (d : ErrDetail)
  | queryFailed (d : ErrDetail)
deriving DecidableEq, Repr

/-- A Python exception as the routes see it: either a `fastapi.HTTPException`
or any other exception carrying a message. -/
inductive PyErr where
  | http (status : Nat) (detail : ErrDetail)
  | exn (m : Str)
deriving DecidableEq, Repr

/-- Python `str(e)`: for an `HTTPException` this renders status and detail,
for any other exception it is the carried message. -/
def strOfErr : PyErr → ErrDetail
  | PyErr.http s d => ErrDetail.strOfHTTP s d
  | PyErr.exn m => ErrDetail.msg m

/-- One `db.fetch_all` call, tagged by which query was run. -/
inductive DbCall where
  | fetchTables
  | fetchColumns (table : Str)
  | exec (sql : Str)
deriving DecidableEq, Repr

/-- A result row as a column-name / value dictionary. -/
abbrev Row := List (Str × Str)

/-- The environment the pipeline runs in: the catalog, whether either
metadata query raises, the completion service, and the database's behaviour
on an arbitrary statement. -/
structure Env where
  cat : Catalog
  tablesError : Option Str
  columnsError : Option Str
  completion : Str → Except Str Str
  execRows : Str → Except Str (List Row)

/-- The dict returned by `get_schema_for_question`. -/
structure SchemaInfo where
  table_name : Str
  columns : List Str
deriving DecidableEq, Repr

/-- Response model of the generate route (`warning` defaults to `""`). -/
structure QueryResponse where
  sql : Str
  warning : Str
deriving DecidableEq, Repr

/-- Response model of the execute route. -/
structure ExecuteResponse where
  sql : Str
  rows : List Row
deriving DecidableEq, Repr

/-! ## The pipeline -/

/-- Result of the tables metadata query:
`SELECT table_name FROM information_schema.tables WHERE table_schema = 'public'`. -/
def tablesQuery (cat : Catalog) : List Str :=
  (cat.tables.filter (fun r => r.table_schema == lit "public")).map
    (fun r => r.table_name)

/-- The `ORDER BY ordinal_position` of the columns metadata query. -/
def sortByOrd (l : List ColumnRow) : List ColumnRow :=
  List.insertionSort (fun a b => a.ordinal_position ≤ b.ordinal_position) l

/-- Result of the columns metadata query: `SELECT column_name FROM
information_schema.columns WHERE table_name = :table ORDER BY ordinal_position`. -/
def columnsQuery (cat : Catalog) (table : Str) : List Str :=
  (sortByOrd (cat.columns.filter (fun c => c.table_name == table))).map
    (fun c => c.column_name)

/-- The list-comprehension filter of `detect_table`:
`r["table_name"].lower() in question.lower()`. -/
def matchesQuestion (q : Str) (n : Str) : Bool :=
  containsSub (pyLower q) (pyLower n)

/-- The `candidates` list built inside `detect_table`. -/
def candidatesOf (env : Env) (q : Str) : List Str :=
  (tablesQuery env.cat).filter (matchesQuestion q)

/-- `detect_table(question)`: single-candidate substring resolution, together
with the database calls it makes. -/
def detect_table (env : Env) (q : Str) : Except PyErr Str × List DbCall :=
  match env.tablesError with
  | some m => (Except.error (PyErr.exn m), [DbCall.fetchTables])
  | none =>
    let candidates := candidatesOf env q
    if candidates.length = 1 then
      (Except.ok (candidates.headD []), [DbCall.fetchTables])
    else
      (Except.error (PyErr.http 400 (ErrDetail.couldNotDetect candidates)),
        [DbCall.fetchTables])

/-- `get_schema_for_question(question)`. -/
def get_schema_for_question (env : Env) (q : Str) :
    Except PyErr SchemaInfo × List DbCall :=
  match detect_table env q with
  | (Except.error e, tr) => (Except.error e, tr)
  | (Except.ok table, tr) =>
    match env.columnsError with
    | some m => (Except.error (PyErr.exn m), tr ++ [DbCall.fetchColumns table])
    | none =>
      (Except.ok ⟨table, columnsQuery env.cat table⟩,
        tr ++ [DbCall.fetchColumns table])

/-- Fixed fragments of the f-string prompt template of `generate_sql`. -/
def promptA : Str :=
  lit "\n    You are a helpful assistant that generates SQL queries.\n    Given the table `"

/-- Fragment between the table name and the column list. -/
def promptB : Str := lit "` and its columns:\n    "

/-- Fragment between the column list and the question. -/
def promptC : Str := lit "\n    and the user's question:\n    "

/-- Closing fragment of the prompt template. -/
def promptD : Str := lit "\n    Produce ONLY the SQL query, no explanation.\n    "

/-- The prompt f-string of `generate_sql(question, schema)`. -/
def build_prompt (question : Str) (schema : SchemaInfo) : Str :=
  promptA ++ schema.table_name ++ promptB ++ pyJoin (lit ", ") schema.columns
    ++ promptC ++ question ++ promptD

/-- The response post-processing of `generate_sql`:
strip, delete every occurrence of the tagged fence marker, delete every
occurrence of the bare fence marker, strip again. -/
def clean_sql (raw : Str) : Str :=
  pyStrip (pyReplace (lit "```") [] (pyReplace (lit "```sql") [] (pyStrip raw)))

/-- `generate_sql(question, schema)`: build the prompt, call the completion
service once, clean the returned text. -/
def generate_sql (env : Env) (question : Str) (schema : SchemaInfo) :
    Except PyErr Str :=
  match env.completion (build_prompt question schema) with
  | Except.error m => Except.error (PyErr.exn m)
  | Except.ok raw => Except.ok (clean_sql raw)

/-- The read-only gate of the execute route:
`sql.strip().lower().startswith("select")`. -/
def isReadOnly (sql : Str) : Bool :=
  List.isPrefixOf (lit "select") (pyLower (pyStrip sql))

/-- The `/generate-sql` route.  Every exception escaping the pipeline is
re-raised as `HTTPException(500, str(e))`. -/
def generate_sql_route (env : Env) (q : Str) :
    Except PyErr QueryResponse × List DbCall :=
  match get_schema_for_question env q with
  | (Except.error e, tr) => (Except.error (PyErr.http 500 (strOfErr e)), tr)
  | (Except.ok schema, tr) =>
    match generate_sql env q schema with
    | Except.error e => (Except.error (PyErr.http 500 (strOfErr e)), tr)
    | Except.ok sql => (Except.ok ⟨sql, []⟩, tr)

/-- The wrapping done by the execute route's exception handler:
`HTTPException(500, f"Query failed: " + str(e))`. -/
def wrapExecErr (e : PyErr) : PyErr :=
  PyErr.http 500 (ErrDetail.queryFailed (strOfErr e))

/-- The `/execute-sql` route: resolve, synthesize, gate, execute.  The raised
gate rejection (`HTTPException(400, "Only SELECT statements are allowed")`) is
itself caught by the route's handler and wrapped like any other failure. -/
def execute_sql_route (env : Env) (q : Str) :
    Except PyErr ExecuteResponse × List DbCall :=
  match get_schema_for_question env q with
  | (Except.error e, tr) => (Except.error (wrapExecErr e), tr)
  | (Except.ok schema, tr) =>
    match generate_sql env q schema with
    | Except.error e => (Except.error (wrapExecErr e), tr)
    | Except.ok sql =>
      if isReadOnly sql then
        match env.execRows sql with
        | Except.error m =>
          (Except.error (wrapExecErr (PyErr.exn m)), tr ++ [DbCall.exec sql])
        | Except.ok rows => (Except.ok ⟨sql, rows⟩, tr ++ [DbCall.exec sql])
      else
        (Except.error (wrapExecErr (PyErr.http 400 ErrDetail.onlySelect)), tr)

/-! ## Lemmas about the Python string primitives -/

theorem isPrefixOf_append_self : ∀ (l t : Str), List.isPrefixOf l (l ++ t) = true
  | [], t => by cases t <;> rfl
  | c :: l, t => by simp [List.isPrefixOf, isPrefixOf_append_self l t]

theorem pyRepAux_skip (pat repl : Str) :
    ∀ (s : Str) (n : Nat), pyRepAux pat repl n s = pyRepAux pat repl 0 (s.drop n)
  | [], n => by cases n <;> simp [pyRepAux]
  | _ :: _, 0 => rfl
  | c :: rest, n+1 => by
    simp [pyRepAux, pyRepAux_skip pat repl rest n]

theorem pyReplace_cons_neg (pat repl : Str) (c : Char) (rest : Str)
    (h : List.isPrefixOf pat (c :: rest) = false) :
    pyReplace pat repl (c :: rest) = c :: pyReplace pat repl rest := by
  simp [pyReplace, pyRepAux, h]

theorem pyReplace_head (p : Char) (ps repl t : Str) :
    pyReplace (p :: ps) repl ((p :: ps) ++ t) = repl ++ pyReplace (p :: ps) repl t := by
  have h1 : List.isPrefixOf (p :: ps) (p :: (ps ++ t)) = true := by
    simpa using isPrefixOf_append_self (p :: ps) t
  show pyRepAux (p :: ps) repl 0 (p :: (ps ++ t)) = _
  simp only [pyRepAux]
  rw [if_pos ⟨h1, List.cons_ne_nil p ps⟩]
  have h2 : (p :: ps).length - 1 = ps.length := by simp
  rw [h2]
  conv_lhs => rw [pyRepAux_skip]
  rw [List.drop_left]
  rfl

theorem pyReplace_append_left (p : Char) (ps repl : Str) :
    ∀ (u t : Str), (∀ c ∈ u, c ≠ p) →
      pyReplace (p :: ps) repl (u ++ t) = u ++ pyReplace (p :: ps) repl t
  | [], t, _ => by simp
  | c :: u, t, h => by
    have hc : (p == c) = false :=
      beq_eq_false_iff_ne.mpr (Ne.symm (h c (by simp)))
    have hpre : List.isPrefixOf (p :: ps) (c :: (u ++ t)) = false := by
      simp [List.isPrefixOf, hc]
    have ih := pyReplace_append_left p ps repl u t (fun d hd => h d (by simp [hd]))
    rw [List.cons_append, pyReplace_cons_neg _ _ _ _ hpre, ih, List.cons_append]

theorem pyLStrip_cons_space {c : Char} (h : isPySpace c = true) (t : Str) :
    pyLStrip (c :: t) = pyLStrip t := by
  simp [pyLStrip, List.dropWhile_cons, h]

theorem pyLStrip_cons_nonspace {c : Char} (h : isPySpace c = false) (t : Str) :
    pyLStrip (c :: t) = c :: t := by
  simp [pyLStrip, List.dropWhile_cons, h]

theorem pyRStrip_concat_space {c : Char} (h : isPySpace c = true) (u : Str) :
    pyRStrip (u ++ [c]) = pyRStrip u := by
  simp [pyRStrip, List.dropWhile_cons, h]

theorem pyRStrip_concat_nonspace {c : Char} (h : isPySpace c = false) (u : Str) :
    pyRStrip (u ++ [c]) = u ++ [c] := by
  simp [pyRStrip, List.dropWhile_cons, h]

theorem pyLStrip_length_le (s : Str) : (pyLStrip s).length ≤ s.length :=
  (List.dropWhile_suffix _).length_le

theorem pyRStrip_length_le (s : Str) : (pyRStrip s).length ≤ s.length := by
  have := (List.dropWhile_suffix (l := s.reverse) isPySpace).length_le
  simpa [pyRStrip] using this

theorem pyStrip_fix_l {s : Str} (h : pyStrip s = s) : pyLStrip s = s := by
  have h1 : s.length ≤ (pyLStrip s).length := by
    calc s.length = (pyStrip s).length := by rw [h]
    _ ≤ (pyLStrip s).length := pyRStrip_length_le _
  exact (List.dropWhile_suffix isPySpace).eq_of_length
    (Nat.le_antisymm (pyLStrip_length_le s) h1)

theorem pyStrip_fix_r {s : Str} (h : pyStrip s = s) : pyRStrip s = s := by
  have h2 := pyStrip_fix_l h
  rw [pyStrip, h2] at h
  exact h

theorem pyLStrip_fix_head {c : Char} {t : Str} (h : pyLStrip (c :: t) = c :: t) :
    isPySpace c = false := by
  by_contra hc
  have hc' : isPySpace c = true := by revert hc; cases isPySpace c <;> simp
  rw [pyLStrip_cons_space hc'] at h
  have hl := pyLStrip_length_le t
  rw [h] at hl
  simp at hl

theorem pyStrip_newline_wrap (s : Str) (h : pyStrip s = s) :
    pyStrip ('\n' :: (s ++ ['\n'])) = s := by
  have hnl : isPySpace '\n' = true := by decide
  cases s with
  | nil => decide
  | cons c s' =>
    have hl : pyLStrip (c :: s') = c :: s' := pyStrip_fix_l h
    have hc : isPySpace c = false := pyLStrip_fix_head hl
    rw [pyStrip, pyLStrip_cons_space hnl, List.cons_append,
      pyLStrip_cons_nonspace hc, ← List.cons_append,
      pyRStrip_concat_space hnl, pyStrip_fix_r h]

theorem pyStrip_bt_bt (u : Str) :
    pyStrip (btChar :: (u ++ [btChar])) = btChar :: (u ++ [btChar]) := by
  rw [pyStrip, pyLStrip_cons_nonspace (by decide), ← List.cons_append,
    pyRStrip_concat_nonspace (by decide), List.cons_append]

theorem no_bt_wrap {s : Str} (hnb : ∀ c ∈ s, c ≠ btChar) :
    ∀ c ∈ lit "\n" ++ (s ++ lit "\n"), c ≠ btChar := by
  intro c hc
  rcases List.mem_append.mp hc with h1 | h1
  · rw [show (lit "\n" : Str) = ['\n'] from rfl] at h1
    simp at h1; subst h1; decide
  · rcases List.mem_append.mp h1 with h2 | h2
    · exact hnb c h2
    · rw [show (lit "\n" : Str) = ['\n'] from rfl] at h2
      simp at h2; subst h2; decide

theorem pyReplace_sqlpat_tail (s : Str) (hnb : ∀ c ∈ s, c ≠ btChar) :
    pyReplace (lit "```sql") [] (lit "\n" ++ (s ++ (lit "\n" ++ lit "```")))
      = lit "\n" ++ (s ++ (lit "\n" ++ lit "```")) := by
  have hg : lit "\n" ++ (s ++ (lit "\n" ++ lit "```"))
      = (lit "\n" ++ (s ++ lit "\n")) ++ lit "```" := by
    simp [List.append_assoc]
  rw [hg, show (lit "```sql" : Str) = btChar :: lit "``sql" from rfl,
    pyReplace_append_left _ _ _ _ _ (no_bt_wrap hnb),
    show pyReplace (btChar :: lit "``sql") [] (lit "```") = lit "```" from by decide]

theorem pyReplace_bt3_tail (s : Str) (hnb : ∀ c ∈ s, c ≠ btChar) :
    pyReplace (lit "```") [] (lit "\n" ++ (s ++ (lit "\n" ++ lit "```")))
      = lit "\n" ++ (s ++ lit "\n") := by
  have hg : lit "\n" ++ (s ++ (lit "\n" ++ lit "```"))
      = (lit "\n" ++ (s ++ lit "\n")) ++ lit "```" := by
    simp [List.append_assoc]
  rw [hg, show (lit "```" : Str) = btChar :: lit "``" from rfl,
    pyReplace_append_left _ _ _ _ _ (no_bt_wrap hnb),
    show pyReplace (btChar :: lit "``") [] (btChar :: lit "``") = [] from by decide,
    List.append_nil]

theorem pyStrip_fence_sql (s : Str) :
    pyStrip (lit "```sql" ++ (lit "\n" ++ (s ++ (lit "\n" ++ lit "```"))))
      = lit "```sql" ++ (lit "\n" ++ (s ++ (lit "\n" ++ lit "```"))) := by
  have hX : lit "```sql" ++ (lit "\n" ++ (s ++ (lit "\n" ++ lit "```")))
      = btChar :: ((lit "``sql" ++ (lit "\n" ++ (s ++ (lit "\n" ++ lit "``")))) ++ [btChar]) := by
    rw [show (lit "```sql" : Str) = btChar :: lit "``sql" from rfl,
      show (lit "```" : Str) = lit "``" ++ [btChar] from rfl]
    simp [List.append_assoc]
  rw [hX, pyStrip_bt_bt]

theorem pyStrip_fence_plain (s : Str) :
    pyStrip (lit "```" ++ (lit "\n" ++ (s ++ (lit "\n" ++ lit "```"))))
      = lit "```" ++ (lit "\n" ++ (s ++ (lit "\n" ++ lit "```"))) := by
  have hX : lit "```" ++ (lit "\n" ++ (s ++ (lit "\n" ++ lit "```")))
      = btChar :: ((lit "``" ++ (lit "\n" ++ (s ++ (lit "\n" ++ lit "``")))) ++ [btChar]) := by
    nth_rewrite 1 [show (lit "```" : Str) = btChar :: lit "``" from rfl]
    nth_rewrite 1 [show (lit "```" : Str) = lit "``" ++ [btChar] from rfl]
    simp [List.append_assoc]
  rw [hX, pyStrip_bt_bt]

theorem clean_sql_fence_sql (s : Str) (hnb : ∀ c ∈ s, c ≠ btChar)
    (h : pyStrip s = s) :
    clean_sql (lit "```sql" ++ (lit "\n" ++ (s ++ (lit "\n" ++ lit "```")))) = s := by
  have h2 : pyReplace (lit "```sql") []
        (lit "```sql" ++ (lit "\n" ++ (s ++ (lit "\n" ++ lit "```"))))
      = lit "\n" ++ (s ++ (lit "\n" ++ lit "```")) := by
    show pyReplace (btChar :: lit "``sql") []
        ((btChar :: lit "``sql") ++ (lit "\n" ++ (s ++ (lit "\n" ++ lit "```")))) = _
    rw [pyReplace_head, List.nil_append]
    exact pyReplace_sqlpat_tail s hnb
  show pyStrip (pyReplace (lit "```") [] (pyReplace (lit "```sql") []
      (pyStrip (lit "```sql" ++ (lit "\n" ++ (s ++ (lit "\n" ++ lit "```"))))))) = s
  rw [pyStrip_fence_sql, h2, pyReplace_bt3_tail s hnb,
    show lit "\n" ++ (s ++ lit "\n") = '\n' :: (s ++ ['\n']) from rfl]
  exact pyStrip_newline_wrap s h

theorem clean_sql_fence_plain (s : Str) (hnb : ∀ c ∈ s, c ≠ btChar)
    (h : pyStrip s = s) :
    clean_sql (lit "```" ++ (lit "\n" ++ (s ++ (lit "\n" ++ lit "```")))) = s := by
  have hp1 : List.isPrefixOf (lit "```sql")
      (btChar :: (btChar :: (btChar :: ('\n' :: (s ++ (lit "\n" ++ lit "```")))))) = false := rfl
  have hp2 : List.isPrefixOf (lit "```sql")
      (btChar :: (btChar :: ('\n' :: (s ++ (lit "\n" ++ lit "```"))))) = false := rfl
  have hp3 : List.isPrefixOf (lit "```sql")
      (btChar :: ('\n' :: (s ++ (lit "\n" ++ lit "```")))) = false := rfl
  have h2 : pyReplace (lit "```sql") []
        (lit "```" ++ (lit "\n" ++ (s ++ (lit "\n" ++ lit "```"))))
      = lit "```" ++ (lit "\n" ++ (s ++ (lit "\n" ++ lit "```"))) := by
    show pyReplace (lit "```sql") []
        (btChar :: (btChar :: (btChar :: ('\n' :: (s ++ (lit "\n" ++ lit "```")))))) = _
    rw [pyReplace_cons_neg _ _ _ _ hp1, pyReplace_cons_neg _ _ _ _ hp2,
      pyReplace_cons_neg _ _ _ _ hp3]
    show btChar :: (btChar :: (btChar :: pyReplace (lit "```sql") []
        (lit "\n" ++ (s ++ (lit "\n" ++ lit "```")))))
      = btChar :: (btChar :: (btChar :: (lit "\n" ++ (s ++ (lit "\n" ++ lit "```")))))
    rw [pyReplace_sqlpat_tail s hnb]
  have h3 : pyReplace (lit "```") []
        (lit "```" ++ (lit "\n" ++ (s ++ (lit "\n" ++ lit "```"))))
      = lit "\n" ++ (s ++ lit "\n") := by
    show pyReplace (btChar :: lit "``") []
        ((btChar :: lit "``") ++ (lit "\n" ++ (s ++ (lit "\n" ++ lit "```")))) = _
    rw [pyReplace_head, List.nil_append]
    exact pyReplace_bt3_tail s hnb
  show pyStrip (pyReplace (lit "```") [] (pyReplace (lit "```sql") []
      (pyStrip (lit "```" ++ (lit "\n" ++ (s ++ (lit "\n" ++ lit "```"))))))) = s
  rw [pyStrip_fence_plain, h2, h3,
    show lit "\n" ++ (s ++ lit "\n") = '\n' :: (s ++ ['\n']) from rfl]
  exact pyStrip_newline_wrap s h

/-! ## Properties of table resolution and schema fetching -/

theorem detect_table_eq_of_none {env : Env} {q : Str} (hm : env.tablesError = none) :
    detect_table env q =
      if (candidatesOf env q).length = 1
      then (Except.ok ((candidatesOf env q).headD []), [DbCall.fetchTables])
      else (Except.error (PyErr.http 400 (ErrDetail.couldNotDetect (candidatesOf env q))),
        [DbCall.fetchTables]) := by
  unfold detect_table
  rw [hm]

theorem detect_table_trace (env : Env) (q : Str) :
    (detect_table env q).2 = [DbCall.fetchTables] := by
  cases hm : env.tablesError with
  | some m => unfold detect_table; rw [hm]
  | none => rw [detect_table_eq_of_none hm]; split <;> rfl

theorem detect_table_ok_mem {env : Env} {q t : Str}
    (h : (detect_table env q).1 = Except.ok t) : t ∈ candidatesOf env q := by
  cases hm : env.tablesError with
  | some m =>
    unfold detect_table at h
    rw [hm] at h
    exact absurd h (by simp)
  | none =>
    rw [detect_table_eq_of_none hm] at h
    by_cases hl : (candidatesOf env q).length = 1
    · rw [if_pos hl] at h
      simp at h
      rcases hcand : candidatesOf env q with _ | ⟨x, rest⟩
      · rw [hcand] at hl; simp at hl
      · rw [hcand] at h
        simp at h
        rw [h]
        simp
    · rw [if_neg hl] at h
      exact absurd h (by simp)

theorem all_eq_nodup_singleton {α : Type} {l : List α} {t : α}
    (hnd : l.Nodup) (hmem : t ∈ l) (hall : ∀ x ∈ l, x = t) : l = [t] := by
  cases l with
  | nil => cases hmem
  | cons c rest =>
    have hc : c = t := hall c (by simp)
    subst hc
    cases rest with
    | nil => rfl
    | cons d rest2 =>
      have hd : d = c := hall d (by simp)
      subst hd
      simp at hnd

theorem mem_tablesQuery {cat : Catalog} {n : Str} :
    n ∈ tablesQuery cat ↔
      ∃ r ∈ cat.tables, r.table_schema = lit "public" ∧ r.table_name = n := by
  simp only [tablesQuery, List.mem_map, List.mem_filter, beq_iff_eq]
  constructor
  · rintro ⟨r, ⟨hr, hs⟩, hn⟩
    exact ⟨r, hr, hs, hn⟩
  · rintro ⟨r, hr, hs, hn⟩
    exact ⟨r, ⟨hr, hs⟩, hn⟩

theorem get_schema_err (env : Env) (q : Str) (e : PyErr)
    (h : (detect_table env q).1 = Except.error e) :
    get_schema_for_question env q = (Except.error e, [DbCall.fetchTables]) := by
  have hp : detect_table env q = (Except.error e, [DbCall.fetchTables]) := by
    calc detect_table env q
        = ((detect_table env q).1, (detect_table env q).2) := rfl
    _ = (Except.error e, [DbCall.fetchTables]) := by rw [h, detect_table_trace]
  unfold get_schema_for_question
  rw [hp]

theorem get_schema_ok (env : Env) (q t : Str)
    (hd : (detect_table env q).1 = Except.ok t) (hcols : env.columnsError = none) :
    get_schema_for_question env q
      = (Except.ok ⟨t, columnsQuery env.cat t⟩,
         [DbCall.fetchTables, DbCall.fetchColumns t]) := by
  have hp : detect_table env q = (Except.ok t, [DbCall.fetchTables]) := by
    calc detect_table env q
        = ((detect_table env q).1, (detect_table env q).2) := rfl
    _ = (Except.ok t, [DbCall.fetchTables]) := by rw [hd, detect_table_trace]
  unfold get_schema_for_question
  rw [hp, hcols]
  rfl

theorem get_schema_err_cols (env : Env) (q t m : Str)
    (hd : (detect_table env q).1 = Except.ok t) (hcols : env.columnsError = some m) :
    get_schema_for_question env q
      = (Except.error (PyErr.exn m),
         [DbCall.fetchTables, DbCall.fetchColumns t]) := by
  have hp : detect_table env q = (Except.ok t, [DbCall.fetchTables]) := by
    calc detect_table env q
        = ((detect_table env q).1, (detect_table env q).2) := rfl
    _ = (Except.ok t, [DbCall.fetchTables]) := by rw [hd, detect_table_trace]
  unfold get_schema_for_question
  rw [hp, hcols]
  rfl

theorem get_schema_trace_shape (env : Env) (q : Str) :
    (get_schema_for_question env q).2 = [DbCall.fetchTables]
    ∨ ∃ t, (get_schema_for_question env q).2
        = [DbCall.fetchTables, DbCall.fetchColumns t] := by
  cases hr : (detect_table env q).1 with
  | error e => left; rw [get_schema_err env q e hr]
  | ok t =>
    right
    refine ⟨t, ?_⟩
    cases hc : env.columnsError with
    | none => rw [get_schema_ok env q t hr hc]
    | some m => rw [get_schema_err_cols env q t m hr hc]

theorem get_schema_no_exec (env : Env) (q : Str) (s : Str) :
    DbCall.exec s ∉ (get_schema_for_question env q).2 := by
  rcases get_schema_trace_shape env q with h | ⟨t, h⟩ <;> rw [h] <;> simp

/-! ## Properties of the two routes -/

theorem schema_pair_err {env : Env} {q : Str} {e : PyErr}
    (h : (get_schema_for_question env q).1 = Except.error e) :
    get_schema_for_question env q
      = (Except.error e, (get_schema_for_question env q).2) := by
  calc get_schema_for_question env q
      = ((get_schema_for_question env q).1, (get_schema_for_question env q).2) := rfl
  _ = _ := by rw [h]

theorem schema_pair_ok {env : Env} {q : Str} {schema : SchemaInfo}
    (h : (get_schema_for_question env q).1 = Except.ok schema) :
    get_schema_for_question env q
      = (Except.ok schema, (get_schema_for_question env q).2) := by
  calc get_schema_for_question env q
      = ((get_schema_for_question env q).1, (get_schema_for_question env q).2) := rfl
  _ = _ := by rw [h]

theorem generate_route_of_schema_err (env : Env) (q : Str) (e : PyErr)
    (h : (get_schema_for_question env q).1 = Except.error e) :
    generate_sql_route env q
      = (Except.error (PyErr.http 500 (strOfErr e)),
         (get_schema_for_question env q).2) := by
  unfold generate_sql_route
  conv_lhs => rw [schema_pair_err h]

theorem generate_route_of_gen_err (env : Env) (q : Str) (schema : SchemaInfo)
    (e : PyErr)
    (h1 : (get_schema_for_question env q).1 = Except.ok schema)
    (h2 : generate_sql env q schema = Except.error e) :
    generate_sql_route env q
      = (Except.error (PyErr.http 500 (strOfErr e)),
         (get_schema_for_question env q).2) := by
  unfold generate_sql_route
  conv_lhs => rw [schema_pair_ok h1]
  show (match generate_sql env q schema with
    | Except.error e =>
      (Except.error (PyErr.http 500 (strOfErr e)), (get_schema_for_question env q).2)
    | Except.ok sql =>
      (Except.ok (QueryResponse.mk sql []), (get_schema_for_question env q).2)) = _
  rw [h2]

theorem generate_route_of_gen_ok (env : Env) (q : Str) (schema : SchemaInfo)
    (sql : Str)
    (h1 : (get_schema_for_question env q).1 = Except.ok schema)
    (h2 : generate_sql env q schema = Except.ok sql) :
    generate_sql_route env q
      = (Except.ok ⟨sql, []⟩, (get_schema_for_question env q).2) := by
  unfold generate_sql_route
  conv_lhs => rw [schema_pair_ok h1]
  show (match generate_sql env q schema with
    | Except.error e =>
      (Except.error (PyErr.http 500 (strOfErr e)), (get_schema_for_question env q).2)
    | Except.ok sql =>
      (Except.ok (QueryResponse.mk sql []), (get_schema_for_question env q).2)) = _
  rw [h2]

theorem execute_route_of_schema_err (env : Env) (q : Str) (e : PyErr)
    (h : (get_schema_for_question env q).1 = Except.error e) :
    execute_sql_route env q
      = (Except.error (wrapExecErr e), (get_schema_for_question env q).2) := by
  unfold execute_sql_route
  conv_lhs => rw [schema_pair_err h]

theorem execute_route_after_schema (env : Env) (q : Str) (schema : SchemaInfo)
    (h1 : (get_schema_for_question env q).1 = Except.ok schema) :
    execute_sql_route env q
      = (match generate_sql env q schema with
        | Except.error e =>
          (Except.error (wrapExecErr e), (get_schema_for_question env q).2)
        | Except.ok sql =>
          if isReadOnly sql then
            match env.execRows sql with
            | Except.error m =>
              (Except.error (wrapExecErr (PyErr.exn m)),
               (get_schema_for_question env q).2 ++ [DbCall.exec sql])
            | Except.ok rows =>
              (Except.ok ⟨sql, rows⟩,
               (get_schema_for_question env q).2 ++ [DbCall.exec sql])
          else
            (Except.error (wrapExecErr (PyErr.http 400 ErrDetail.onlySelect)),
             (get_schema_for_question env q).2)) := by
  unfold execute_sql_route
  conv_lhs => rw [schema_pair_ok h1]

theorem execute_route_of_gen_err (env : Env) (q : Str) (schema : SchemaInfo)
    (e : PyErr)
    (h1 : (get_schema_for_question env q).1 = Except.ok schema)
    (h2 : generate_sql env q schema = Except.error e) :
    execute_sql_route env q
      = (Except.error (wrapExecErr e), (get_schema_for_question env q).2) := by
  rw [execute_route_after_schema env q schema h1, h2]

theorem execute_route_gate_reject (env : Env) (q : Str) (schema : SchemaInfo)
    (sql : Str)
    (h1 : (get_schema_for_question env q).1 = Except.ok schema)
    (h2 : generate_sql env q schema = Except.ok sql)
    (h3 : isReadOnly sql = false) :
    execute_sql_route env q
      = (Except.error (wrapExecErr (PyErr.http 400 ErrDetail.onlySelect)),
         (get_schema_for_question env q).2) := by
  rw [execute_route_after_schema env q schema h1, h2]
  show (if isReadOnly sql then _ else _) = _
  rw [h3]
  rfl

theorem execute_route_exec_err (env : Env) (q : Str) (schema : SchemaInfo)
    (sql m : Str)
    (h1 : (get_schema_for_question env q).1 = Except.ok schema)
    (h2 : generate_sql env q schema = Except.ok sql)
    (h3 : isReadOnly sql = true)
    (h4 : env.execRows sql = Except.error m) :
    execute_sql_route env q
      = (Except.error (wrapExecErr (PyErr.exn m)),
         (get_schema_for_question env q).2 ++ [DbCall.exec sql]) := by
  rw [execute_route_after_schema env q schema h1, h2]
  show (if isReadOnly sql then _ else _) = _
  rw [h3]
  show (match env.execRows sql with
    | Except.error m =>
      (Except.error (wrapExecErr (PyErr.exn m)),
       (get_schema_for_question env q).2 ++ [DbCall.exec sql])
    | Except.ok rows =>
      (Except.ok (ExecuteResponse.mk sql rows),
       (get_schema_for_question env q).2 ++ [DbCall.exec sql])) = _
  rw [h4]

theorem generate_route_trace (env : Env) (q : Str) :
    (generate_sql_route env q).2 = (get_schema_for_question env q).2 := by
  cases hr : (get_schema_for_question env q).1 with
  | error e => rw [generate_route_of_schema_err env q e hr]
  | ok schema =>
    cases hg : generate_sql env q schema with
    | error e => rw [generate_route_of_gen_err env q schema e hr hg]
    | ok sql => rw [generate_route_of_gen_ok env q schema sql hr hg]

/-! ## First-token and ordering helpers -/

def firstTokenLower (sql : Str) : Str :=
  List.takeWhile (fun c => !(isPySpace c)) (pyLower (pyStrip sql))

theorem isPrefixOf_nil_left (l : Str) : List.isPrefixOf ([] : Str) l = true := by
  cases l <;> rfl

theorem takeWhile_isPrefixOf (p : Char → Bool) :
    ∀ l : Str, List.isPrefixOf (List.takeWhile p l) l = true
  | [] => rfl
  | c :: l => by
    rw [List.takeWhile_cons]
    cases hp : p c
    · simp only [Bool.false_eq_true, if_false]
      exact isPrefixOf_nil_left (c :: l)
    · simp only [if_true]
      simp [List.isPrefixOf, takeWhile_isPrefixOf p l]

theorem takeWhile_cons_head {p : Char → Bool} {L : Str} {c : Char} {t : Str}
    (h : List.takeWhile p L = c :: t) : ∃ L2, L = c :: L2 := by
  cases L with
  | nil => simp at h
  | cons d L2 =>
    rw [List.takeWhile_cons] at h
    cases hp : p d
    · rw [hp] at h; simp at h
    · rw [hp] at h
      simp at h
      exact ⟨L2, by rw [h.1]⟩

theorem select_not_prefixOf_cons {c : Char} (L2 : Str) (hc : ('s' == c) = false) :
    List.isPrefixOf (lit "select") (c :: L2) = false := by
  show ('s' == c && List.isPrefixOf (lit "elect") L2) = false
  rw [hc, Bool.false_and]

theorem sortByOrd_perm (l : List ColumnRow) : List.Perm (sortByOrd l) l :=
  List.perm_insertionSort _ l

theorem sortByOrd_sorted (l : List ColumnRow) :
    List.Sorted (fun a b => a.ordinal_position ≤ b.ordinal_position) (sortByOrd l) := by
  haveI : IsTotal ColumnRow (fun a b => a.ordinal_position ≤ b.ordinal_position) :=
    ⟨fun a b => Nat.le_total a.ordinal_position b.ordinal_position⟩
  haveI : IsTrans ColumnRow (fun a b => a.ordinal_position ≤ b.ordinal_position) :=
    ⟨fun a b c => Nat.le_trans⟩
  exact List.sorted_insertionSort _ l

/-! ## Concrete scenarios used to exercise the theorems -/

def demoCatalog : Catalog :=
  { tables := [⟨lit "public", lit "orders"⟩, ⟨lit "public", lit "customers"⟩],
    columns := [⟨lit "orders", lit "total", 3⟩, ⟨lit "orders", lit "id", 1⟩,
      ⟨lit "orders", lit "customer_id", 2⟩, ⟨lit "customers", lit "id", 1⟩,
      ⟨lit "customers", lit "name", 2⟩] }

def demoEnv : Env :=
  { cat := demoCatalog, tablesError := none, columnsError := none,
    completion := fun _ => Except.ok (lit "SELECT COUNT(*) FROM orders"),
    execRows := fun _ => Except.ok [[(lit "count", lit "5")]] }

def delEnv : Env :=
  { demoEnv with completion := fun _ => Except.ok (lit "DELETE FROM customers") }

def secretCatalog : Catalog :=
  { tables := [⟨lit "private", lit "secrets"⟩, ⟨lit "public", lit "orders"⟩],
    columns := [] }

def secretEnv : Env :=
  { cat := secretCatalog, tablesError := none, columnsError := none,
    completion := fun _ => Except.ok (lit "SELECT 1"),
    execRows := fun _ => Except.ok [] }

/-! ## Claim theorems -/

/-- C1: in `executeSelect`, whenever the synthesized candidate SQL fails the
read-only check, the caller receives the UnsafeStatement error ("Only SELECT
statements are allowed", surfaced through the route's exception wrapper) and
the candidate is never executed: the database-call trace contains no `exec`
call, so execution happens only after the Safety Gate approves (fail-closed,
no partial execution). -/
theorem execute_select_fail_closed (env : Env) (q : Str) (schema : SchemaInfo)
    (sql : Str)
    (h1 : (get_schema_for_question env q).1 = Except.ok schema)
    (h2 : generate_sql env q schema = Except.ok sql)
    (h3 : isReadOnly sql = false) :
    (execute_sql_route env q).1
      = Except.error (PyErr.http 500 (ErrDetail.queryFailed
          (ErrDetail.strOfHTTP 400 ErrDetail.onlySelect)))
    ∧ ∀ s, DbCall.exec s ∉ (execute_sql_route env q).2 := by
  have hr := execute_route_gate_reject env q schema sql h1 h2 h3
  constructor
  · rw [hr]
    rfl
  · intro s hmem
    rw [hr] at hmem
    exact get_schema_no_exec env q s hmem

/-- C1 witness: the spec's "delete all customers" scenario with a stubbed
completion returning "DELETE FROM customers": an error comes back and no
execution call is made. -/
theorem execute_select_fail_closed_witness :
    (execute_sql_route delEnv (lit "delete all customers")).1
      = Except.error (PyErr.http 500 (ErrDetail.queryFailed
          (ErrDetail.strOfHTTP 400 ErrDetail.onlySelect)))
    ∧ ∀ s, DbCall.exec s ∉ (execute_sql_route delEnv (lit "delete all customers")).2 :=
  execute_select_fail_closed delEnv (lit "delete all customers")
    ⟨lit "customers", columnsQuery demoCatalog (lit "customers")⟩
    (lit "DELETE FROM customers") (by decide) (by decide) (by decide)

/-- C2 counterexample: the Safety Gate is a string-prefix check, not a
first-token check: "selectivity" passes the gate although its first token is
not SELECT, so the claimed iff is false. -/
theorem isReadOnly_token_counterexample :
    ¬ (∀ sql : Str, isReadOnly sql = true ↔ firstTokenLower sql = lit "select") := by
  intro h
  have h1 := (h (lit "selectivity")).mp (by decide)
  exact absurd h1 (by decide)

/-- C2 amended: the gate returns true iff the trimmed, case-folded statement
begins with the character sequence "select" (a prefix check rather than a
first-token check); in particular it still returns true whenever the first
token is exactly SELECT, and returns false whenever the first token is
INSERT, UPDATE, DELETE or DROP, leading whitespace included. -/
theorem isReadOnly_select_start (sql : Str) :
    (isReadOnly sql = true
      ↔ List.isPrefixOf (lit "select") (pyLower (pyStrip sql)) = true)
    ∧ (firstTokenLower sql = lit "select" → isReadOnly sql = true)
    ∧ (firstTokenLower sql = lit "insert" ∨ firstTokenLower sql = lit "update"
        ∨ firstTokenLower sql = lit "delete" ∨ firstTokenLower sql = lit "drop"
        → isReadOnly sql = false) := by
  refine ⟨Iff.rfl, ?_, ?_⟩
  · intro h
    show List.isPrefixOf (lit "select") (pyLower (pyStrip sql)) = true
    rw [← h]
    exact takeWhile_isPrefixOf _ _
  · intro h
    show List.isPrefixOf (lit "select") (pyLower (pyStrip sql)) = false
    rcases h with h | h | h | h
    · obtain ⟨L2, hL⟩ := takeWhile_cons_head
        (show List.takeWhile (fun c => !(isPySpace c)) (pyLower (pyStrip sql))
          = 'i' :: lit "nsert" from h)
      rw [hL]
      exact select_not_prefixOf_cons L2 (by decide)
    · obtain ⟨L2, hL⟩ := takeWhile_cons_head
        (show List.takeWhile (fun c => !(isPySpace c)) (pyLower (pyStrip sql))
          = 'u' :: lit "pdate" from h)
      rw [hL]
      exact select_not_prefixOf_cons L2 (by decide)
    · obtain ⟨L2, hL⟩ := takeWhile_cons_head
        (show List.takeWhile (fun c => !(isPySpace c)) (pyLower (pyStrip sql))
          = 'd' :: lit "elete" from h)
      rw [hL]
      exact select_not_prefixOf_cons L2 (by decide)
    · obtain ⟨L2, hL⟩ := takeWhile_cons_head
        (show List.takeWhile (fun c => !(isPySpace c)) (pyLower (pyStrip sql))
          = 'd' :: lit "rop" from h)
      rw [hL]
      exact select_not_prefixOf_cons L2 (by decide)

/-- C2 amended witness: a mixed-case SELECT with leading whitespace passes. -/
theorem isReadOnly_select_start_witness :
    isReadOnly (lit "  SeLeCt 1") = true :=
  (isReadOnly_select_start (lit "  SeLeCt 1")).2.1 (by decide)

/-- C3: if exactly one known table name matches the question (its lower-cased
form is a substring of the lower-cased question) and no other known table
name matches, `detect_table` returns that table.  The catalog is assumed not
to list the same table name twice in the public schema. -/
theorem resolve_unique_match (env : Env) (q t : Str)
    (hmeta : env.tablesError = none)
    (hnodup : (tablesQuery env.cat).Nodup)
    (ht : t ∈ tablesQuery env.cat)
    (hmatch : matchesQuestion q t = true)
    (huniq : ∀ u ∈ tablesQuery env.cat, matchesQuestion q u = true → u = t) :
    (detect_table env q).1 = Except.ok t := by
  have hc : candidatesOf env q = [t] := by
    refine all_eq_nodup_singleton (hnodup.filter _)
      (List.mem_filter.mpr ⟨ht, hmatch⟩) ?_
    intro x hx
    rcases List.mem_filter.mp hx with ⟨hx1, hx2⟩
    exact huniq x hx1 hx2
  rw [detect_table_eq_of_none hmeta, hc]
  simp

/-- C3 witness: the spec's scenario, "how many orders are there" resolves to
`orders`. -/
theorem resolve_unique_match_witness :
    (detect_table demoEnv (lit "how many orders are there")).1
      = Except.ok (lit "orders") :=
  resolve_unique_match demoEnv (lit "how many orders are there") (lit "orders")
    (by decide) (by decide) (by decide) (by decide) (by decide)

/-- C4: with zero or two-or-more matching table names, `detect_table` fails
with the could-not-detect error carrying exactly the matched candidate list
(possibly empty), and no table is returned. -/
theorem resolve_ambiguous_error (env : Env) (q : Str)
    (hmeta : env.tablesError = none)
    (hlen : (candidatesOf env q).length = 0 ∨ 2 ≤ (candidatesOf env q).length) :
    (detect_table env q).1
      = Except.error (PyErr.http 400
          (ErrDetail.couldNotDetect (candidatesOf env q))) := by
  have hne : (candidatesOf env q).length ≠ 1 := by
    rcases hlen with h | h <;> omega
  rw [detect_table_eq_of_none hmeta, if_neg hne]

/-- C4 witness: a question matching no table yields the error with an empty
candidate list. -/
theorem resolve_ambiguous_error_witness :
    (detect_table demoEnv (lit "hello")).1
      = Except.error (PyErr.http 400
          (ErrDetail.couldNotDetect (candidatesOf demoEnv (lit "hello")))) :=
  resolve_ambiguous_error demoEnv (lit "hello") (by decide) (Or.inl (by decide))

/-- C5 counterexample: the fence post-processing does not recover the inner
statement for an arbitrary language tag: with tag "python" the tag text
survives into the output, so the claim quantified over every tag is false. -/
theorem clean_sql_tag_counterexample :
    ¬ (∀ tag s : Str, pyStrip s = s →
        clean_sql (lit "```" ++ (tag ++ (lit "\n" ++ (s ++ (lit "\n" ++ lit "```")))))
          = s) := by
  intro h
  have h1 := h (lit "python") (lit "SELECT 1") (by decide)
  exact absurd h1 (by decide)

/-- C5 amended: for a completion response wrapping the statement in fence
markers with the `sql` language tag or with no tag, the post-processing
(strip, remove tagged fence marker, remove bare fence marker, strip) returns
exactly the inner statement, provided the inner statement is already trimmed
and contains no backtick. -/
theorem clean_sql_fences (s : Str) (hnb : ∀ c ∈ s, c ≠ btChar)
    (h : pyStrip s = s) :
    clean_sql (lit "```sql" ++ (lit "\n" ++ (s ++ (lit "\n" ++ lit "```")))) = s
    ∧ clean_sql (lit "```" ++ (lit "\n" ++ (s ++ (lit "\n" ++ lit "```")))) = s :=
  ⟨clean_sql_fence_sql s hnb h, clean_sql_fence_plain s hnb h⟩

/-- C5 amended witness: the spec's round-trip example, the cleaned form of a
fenced "SELECT 1" is "SELECT 1". -/
theorem clean_sql_fences_witness :
    clean_sql (lit "```sql" ++ (lit "\n" ++ (lit "SELECT 1" ++ (lit "\n" ++ lit "```"))))
      = lit "SELECT 1" :=
  (clean_sql_fences (lit "SELECT 1") (by decide) (by decide)).1

/-- C6 counterexample: a resolution failure is not returned as the
AmbiguousOrUnknownTable error itself; the route's blanket handler re-raises
it as a generic 500 whose detail merely embeds the stringified original, so
the claim that no failure is reported under a different or generic kind is
false. -/
theorem error_kind_counterexample :
    (generate_sql_route demoEnv (lit "hello")).1
      = Except.error (PyErr.http 500
          (ErrDetail.strOfHTTP 400 (ErrDetail.couldNotDetect [])))
    ∧ (generate_sql_route demoEnv (lit "hello")).1
      ≠ Except.error (PyErr.http 400 (ErrDetail.couldNotDetect [])) := by
  decide

/-- C6 amended: every pipeline failure terminates the request and reaches the
caller as an HTTP-500 error whose detail wraps the stringified original error
(so the candidate list or original message is preserved inside), the execute
route prefixing "Query failed: "; no failure is swallowed and no result is
returned. -/
theorem error_wrapping_total (env : Env) (q : Str) :
    (∀ e, (get_schema_for_question env q).1 = Except.error e →
      (generate_sql_route env q).1 = Except.error (PyErr.http 500 (strOfErr e))
      ∧ (execute_sql_route env q).1
          = Except.error (PyErr.http 500 (ErrDetail.queryFailed (strOfErr e))))
    ∧ (∀ schema e, (get_schema_for_question env q).1 = Except.ok schema →
        generate_sql env q schema = Except.error e →
        (generate_sql_route env q).1 = Except.error (PyErr.http 500 (strOfErr e))
        ∧ (execute_sql_route env q).1
            = Except.error (PyErr.http 500 (ErrDetail.queryFailed (strOfErr e))))
    ∧ (∀ schema sql, (get_schema_for_question env q).1 = Except.ok schema →
        generate_sql env q schema = Except.ok sql → isReadOnly sql = false →
        (execute_sql_route env q).1
          = Except.error (PyErr.http 500 (ErrDetail.queryFailed
              (ErrDetail.strOfHTTP 400 ErrDetail.onlySelect))))
    ∧ (∀ schema sql m, (get_schema_for_question env q).1 = Except.ok schema →
        generate_sql env q schema = Except.ok sql → isReadOnly sql = true →
        env.execRows sql = Except.error m →
        (execute_sql_route env q).1
          = Except.error (PyErr.http 500
              (ErrDetail.queryFailed (ErrDetail.msg m)))) := by
  refine ⟨?_, ?_, ?_, ?_⟩
  · intro e h
    refine ⟨?_, ?_⟩
    · rw [generate_route_of_schema_err env q e h]
    · rw [execute_route_of_schema_err env q e h]
      rfl
  · intro schema e h1 h2
    refine ⟨?_, ?_⟩
    · rw [generate_route_of_gen_err env q schema e h1 h2]
    · rw [execute_route_of_gen_err env q schema e h1 h2]
      rfl
  · intro schema sql h1 h2 h3
    rw [execute_route_gate_reject env q schema sql h1 h2 h3]
    rfl
  · intro schema sql m h1 h2 h3 h4
    rw [execute_route_exec_err env q schema sql m h1 h2 h3 h4]
    rfl

/-- C6 amended witness: the unmatched-question failure surfaces as the
wrapped 500 on both routes. -/
theorem error_wrapping_total_witness :
    (generate_sql_route demoEnv (lit "hello")).1
      = Except.error (PyErr.http 500
          (strOfErr (PyErr.http 400 (ErrDetail.couldNotDetect []))))
    ∧ (execute_sql_route demoEnv (lit "hello")).1
      = Except.error (PyErr.http 500 (ErrDetail.queryFailed
          (strOfErr (PyErr.http 400 (ErrDetail.couldNotDetect []))))) :=
  (error_wrapping_total demoEnv (lit "hello")).1
    (PyErr.http 400 (ErrDetail.couldNotDetect [])) (by decide)

/-- C7: the generate operation never executes the synthesized SQL: its
database-call trace contains no `exec` call, and every call it makes is one
of the two read-only catalog metadata queries. -/
theorem generate_never_executes (env : Env) (q : Str) :
    (∀ s, DbCall.exec s ∉ (generate_sql_route env q).2)
    ∧ (∀ c ∈ (generate_sql_route env q).2,
        c = DbCall.fetchTables ∨ ∃ t, c = DbCall.fetchColumns t) := by
  have htr := generate_route_trace env q
  constructor
  · intro s
    rw [htr]
    exact get_schema_no_exec env q s
  · intro c hc
    rw [htr] at hc
    rcases get_schema_trace_shape env q with h | ⟨t, h⟩
    · rw [h] at hc
      simp at hc
      left
      exact hc
    · rw [h] at hc
      simp at hc
      rcases hc with hc | hc
      · left; exact hc
      · right; exact ⟨t, hc⟩

/-- C7 witness: instantiated on the demo environment, membership of the
catalog-tables call in the generate trace classifies it as a metadata call. -/
theorem generate_never_executes_witness :
    DbCall.fetchTables = DbCall.fetchTables
    ∨ ∃ t, DbCall.fetchTables = DbCall.fetchColumns t :=
  (generate_never_executes demoEnv (lit "how many orders are there")).2
    DbCall.fetchTables (by decide)

/-- C8: prompt building is a pure function of the question and the schema:
two invocations on identical inputs produce identical prompt strings (the
embedding of the prompt f-string depends on nothing else). -/
theorem build_prompt_pure (q1 q2 : Str) (s1 s2 : SchemaInfo)
    (hq : q1 = q2) (hs : s1 = s2) :
    build_prompt q1 s1 = build_prompt q2 s2 := by
  rw [hq, hs]

/-- C8 witness: a concrete double invocation. -/
theorem build_prompt_pure_witness :
    build_prompt (lit "how many orders are there")
        (SchemaInfo.mk (lit "orders") [lit "id"])
      = build_prompt (lit "how many orders are there")
        (SchemaInfo.mk (lit "orders") [lit "id"]) :=
  build_prompt_pure _ _ _ _ rfl rfl

/-- C9: when the question resolves, the produced SchemaInfo names the
resolved table, that table exists in the catalog's public table list, its
columns are the catalog rows of that table sorted by ordinal position (the
sort is a permutation of exactly those rows and is sorted), and the prompt
contains the comma-joined column list verbatim as a contiguous segment. -/
theorem schema_info_sound (env : Env) (q t : Str)
    (hd : (detect_table env q).1 = Except.ok t)
    (hcols : env.columnsError = none) :
    ∃ schema, (get_schema_for_question env q).1 = Except.ok schema
      ∧ schema.table_name = t
      ∧ t ∈ tablesQuery env.cat
      ∧ schema.columns
          = (sortByOrd (env.cat.columns.filter (fun c => c.table_name == t))).map
              (fun c => c.column_name)
      ∧ List.Sorted (fun a b => a.ordinal_position ≤ b.ordinal_position)
          (sortByOrd (env.cat.columns.filter (fun c => c.table_name == t)))
      ∧ List.Perm (sortByOrd (env.cat.columns.filter (fun c => c.table_name == t)))
          (env.cat.columns.filter (fun c => c.table_name == t))
      ∧ ∃ a b, build_prompt q schema
          = a ++ (pyJoin (lit ", ") schema.columns ++ b) := by
  refine ⟨⟨t, columnsQuery env.cat t⟩, ?_, rfl, ?_, rfl,
    sortByOrd_sorted _, sortByOrd_perm _, ?_⟩
  · rw [get_schema_ok env q t hd hcols]
  · exact (List.mem_filter.mp (detect_table_ok_mem hd)).1
  · refine ⟨promptA ++ (t ++ promptB), promptC ++ (q ++ promptD), ?_⟩
    simp [build_prompt, List.append_assoc]

/-- C9 witness: the demo catalog's unsorted `orders` column rows come back in
ordinal order inside the schema and the prompt. -/
theorem schema_info_sound_witness :
    ∃ schema, (get_schema_for_question demoEnv (lit "how many orders are there")).1
        = Except.ok schema
      ∧ schema.table_name = lit "orders"
      ∧ lit "orders" ∈ tablesQuery demoEnv.cat
      ∧ schema.columns
          = (sortByOrd (demoEnv.cat.columns.filter
              (fun c => c.table_name == lit "orders"))).map (fun c => c.column_name)
      ∧ List.Sorted (fun a b => a.ordinal_position ≤ b.ordinal_position)
          (sortByOrd (demoEnv.cat.columns.filter
            (fun c => c.table_name == lit "orders")))
      ∧ List.Perm (sortByOrd (demoEnv.cat.columns.filter
            (fun c => c.table_name == lit "orders")))
          (demoEnv.cat.columns.filter (fun c => c.table_name == lit "orders"))
      ∧ ∃ a b, build_prompt (lit "how many orders are there") schema
          = a ++ (pyJoin (lit ", ") schema.columns ++ b) :=
  schema_info_sound demoEnv (lit "how many orders are there") (lit "orders")
    (by decide) (by decide)

/-- C10: table resolution only considers catalog rows of the `public`
schema: a catalog table from any other schema (whose name no public table
shares) is never in the candidate set and is never resolved, even when its
name occurs in the question. -/
theorem non_public_never_resolved (env : Env) (q : Str) (r : TableRow)
    (_hr : r ∈ env.cat.tables)
    (_hs : r.table_schema ≠ lit "public")
    (hdistinct : ∀ r2 ∈ env.cat.tables,
      r2.table_schema = lit "public" → r2.table_name ≠ r.table_name) :
    r.table_name ∉ candidatesOf env q
    ∧ (detect_table env q).1 ≠ Except.ok r.table_name := by
  have hmem : r.table_name ∉ tablesQuery env.cat := by
    intro hm
    rcases mem_tablesQuery.mp hm with ⟨r2, hr2, hsch, hname⟩
    exact hdistinct r2 hr2 hsch hname
  constructor
  · intro hc
    exact hmem (List.mem_filter.mp hc).1
  · intro hok
    exact hmem (List.mem_filter.mp (detect_table_ok_mem hok)).1

/-- C10 witness: the non-public `secrets` table is mentioned in the question
but is neither a candidate nor resolvable. -/
theorem non_public_never_resolved_witness :
    (lit "secrets") ∉ candidatesOf secretEnv (lit "show secrets from orders")
    ∧ (detect_table secretEnv (lit "show secrets from orders")).1
        ≠ Except.ok (lit "secrets") :=
  non_public_never_resolved secretEnv (lit "show secrets from orders")
    ⟨lit "private", lit "secrets"⟩ (by decide) (by decide) (by decide)

end SqlAi
